import Mathlib

/-!
Verification development for the AdrAnalyzer backend (`src/server.js`).

The file shallowly embeds the two core components of the server:
the resilient retrieval layer (`fetchWithRedirects` plus the protocol
fallback at its call site in `/api/analyze-url`) and the check/scoring
engine (the ordered check battery, the `runCheck` harness and the
scoring/penalty pipeline).  DOM queries are abstracted into a record of
query results (`Document`); every predicate body, threshold and branch
order is translated directly from the JavaScript source.
-/

namespace Adr

/-- Outcome status of a single check (`pass` / `warn` / `fail` / `manual`). -/
inductive Status where
  | pass
  | warn
  | fail
  | manual
deriving DecidableEq, BEq, Repr

instance : LawfulBEq Status where
  eq_of_beq := by intro a b h; cases a <;> cases b <;> first | rfl | exact absurd h (by decide)
  rfl := by intro a; cases a <;> rfl

/-- One entry of the `checks` array.  The three manual checks are pushed
without a `weight` property in the source, so the weight is optional. -/
structure CheckResult where
  name : String
  category : String
  weight : Option ℚ
  status : Status
  message : String
deriving DecidableEq, Repr

def defaultCheck : CheckResult :=
  { name := "", category := "", weight := none, status := Status.fail, message := "" }

/-- `sub` occurs as a contiguous run inside the character list. -/
def hasSub (sub : List Char) : List Char → Bool
  | [] => sub.isPrefixOf ([] : List Char)
  | c :: cs => sub.isPrefixOf (c :: cs) || hasSub sub cs

/-- JavaScript `s.includes(sub)` (case-sensitive substring test). -/
def strIncludes (s sub : String) : Bool :=
  hasSub sub.toList s.toList

/-- JavaScript `s.toLowerCase()` (character-wise, ASCII-faithful). -/
def strLower (s : String) : String :=
  String.mk (s.toList.map Char.toLower)

/-- JavaScript `s.startsWith(pre)`. -/
def strStarts (s pre : String) : Bool :=
  List.isPrefixOf pre.toList s.toList

/-- Drop the first `n` characters (used only under a scheme-prefix
guard, where it coincides with the JS slicing on the scheme). -/
def strDrop (s : String) (n : Nat) : String :=
  String.mk (s.toList.drop n)

/-- `textContent.split(/\s+/).filter(word => word.length > 2).length`:
split at each whitespace character (empty tokens are removed by the
length filter exactly as under the JS regex split). -/
def splitTok (cur : List Char) : List Char → List (List Char)
  | [] => [cur.reverse]
  | c :: cs => if c.isWhitespace then cur.reverse :: splitTok [] cs else splitTok (c :: cur) cs

def wordCount (s : String) : Nat :=
  ((splitTok [] s.toList).filter (fun w => w.length > 2)).length

/-- Scheme of a URL string, as `new URL(u).protocol` for http/https URLs. -/
def urlProtocol (u : String) : String :=
  if strStarts u "https://" then "https:"
  else if strStarts u "http://" then "http:"
  else ""

def urlHostPart (u : String) : String :=
  if strStarts u "https://" then strDrop u 8 else if strStarts u "http://" then strDrop u 7 else u

/-- Hostname of a URL string, as `new URL(u).hostname` for http/https URLs. -/
def urlHostname (u : String) : String :=
  String.mk ((urlHostPart u).toList.takeWhile
    (fun c => c ≠ '/' && c ≠ ':' && c ≠ '?' && c ≠ '#'))

/-- An `<a>` element as seen by the checks: its (lowercase-comparable)
`href` and `textContent`. -/
structure Link where
  href : String
  text : String
deriving DecidableEq, Repr

/-- The parsed document, abstracted to the query results the check
battery reads from the JSDOM document. -/
structure Document where
  /-- `doc.querySelector('title')?.textContent?.trim()` (`none` if absent). -/
  title : Option String
  /-- trimmed `content` of `meta[name="description"]` (`none` if absent). -/
  metaDescription : Option String
  /-- number of links found in the detected navigation region. -/
  navLinkCount : Nat
  /-- all `<a>` elements of the document, in order. -/
  links : List Link
  /-- `content` of `meta[name="viewport"]` (`none` if the meta is absent). -/
  viewport : Option String
  /-- some `style` / stylesheet `link` element mentions `media`. -/
  hasResponsiveCss : Bool
  /-- `doc.body.textContent`. -/
  bodyText : String
  /-- `doc.querySelectorAll('h1').length`. -/
  h1Count : Nat
  /-- `doc.querySelectorAll('h1, h2, h3, h4, h5, h6').length`. -/
  headingCount : Nat
  /-- `doc.querySelectorAll('img').length`. -/
  imgCount : Nat
  /-- number of images with non-empty trimmed alt text. -/
  imgAltCount : Nat
  /-- `documentElement.getAttribute('lang')` (`none` when null). -/
  lang : Option String
  /-- an icon `link` element with a truthy `href` exists. -/
  hasFavicon : Bool
  /-- some script matches the Google Analytics signatures. -/
  hasAnalytics : Bool
  /-- a `script[type="application/ld+json"]` element exists. -/
  hasJsonLd : Bool
  /-- `textContent` of the detected main-content element
  (`article, main, .main, .post, #content`), `none` when absent. -/
  mainText : Option String
deriving DecidableEq, Repr

/-- Outcome of an auxiliary probe (`robots.txt` / `ads.txt`) fetch:
a thrown network error, a non-ok response, or an ok response body. -/
inductive FetchProbe where
  | err (msg : String)
  | notOk
  | ok (text : String)
deriving DecidableEq, Repr

/-! ### robots.txt analysis

The source tests the body of `robots.txt` against three regexes
`/User-agent:\s*AGENT\s*Disallow:\s*\/$/im` (AGENT one of `*`,
`Googlebot`, `AdsBot-Google`) and against `/sitemap:/i`.  The matcher
below implements exactly those patterns: case-insensitive literals,
greedy whitespace runs (the element after each `\s*` is never a
whitespace character, so greedy matching coincides with the regex),
and a multiline `$` (end of input or before a line terminator). -/

/-- Drop a leading (possibly empty) run of whitespace: the `\s*` parts. -/
def dropWs : List Char → List Char
  | [] => []
  | c :: cs => if c.isWhitespace then dropWs cs else c :: cs

/-- Match a (lowercase) literal case-insensitively, returning the rest. -/
def stripLitCI : List Char → List Char → Option (List Char)
  | [], cs => some cs
  | _ :: _, [] => none
  | p :: ps, c :: cs => if c.toLower = p then stripLitCI ps cs else none

/-- Multiline `$`: end of input or a line terminator follows. -/
def atLineEnd : List Char → Bool
  | [] => true
  | c :: _ => c = '\n' || c = '\r'

/-- Match `User-agent:\s*AGENT\s*Disallow:\s*\/$` at this position. -/
def disallowAllAt (agent : List Char) (cs : List Char) : Bool :=
  match stripLitCI "user-agent:".toList cs with
  | none => false
  | some r1 =>
    match stripLitCI agent (dropWs r1) with
    | none => false
    | some r2 =>
      match stripLitCI "disallow:".toList (dropWs r2) with
      | none => false
      | some r3 =>
        match stripLitCI "/".toList (dropWs r3) with
        | none => false
        | some r4 => atLineEnd r4

/-- `regex.test`: the pattern matches at some position of the text. -/
def anyTail (f : List Char → Bool) : List Char → Bool
  | [] => f []
  | c :: cs => f (c :: cs) || anyTail f cs

def disallowAll (agent : String) (text : String) : Bool :=
  anyTail (disallowAllAt (strLower agent).toList) text.toList

/-- `blockingPatterns.some(pattern => pattern.test(text))`. -/
def isBlocked (text : String) : Bool :=
  disallowAll "*" text || disallowAll "Googlebot" text || disallowAll "AdsBot-Google" text

/-- `/sitemap:/i.test(text)`. -/
def hasSitemapRef (text : String) : Bool :=
  strIncludes (strLower text) "sitemap:"

/-! ### The check predicates

Each `runCheck('Name', CAT, weight, () => { ... })` body from the source,
translated branch for branch.  Each predicate returns the
`{status, message}` pair. -/

def CAT_AUTO : String := "Automated Technical Checks"
def CAT_STRUCT_ACC : String := "Site Structure & Accessibility"
def CAT_CONTENT : String := "Content Quality Indicators"
def CAT_PERFORMANCE : String := "Performance & SEO"

/-- `findLink(keywords)`: first link whose lowercased href or text
contains one of the keywords. -/
def findLink (keywords : List String) (links : List Link) : Option Link :=
  links.find? (fun l =>
    keywords.any (fun k => strIncludes (strLower l.href) k || strIncludes (strLower l.text) k))

/-- Check `Secure Connection (HTTPS/SSL)` (weight 20). -/
def secureConnCheck (finalResolvedUrl : String) : Status × String :=
  if strStarts finalResolvedUrl "https://" then
    (Status.pass, "Site uses HTTPS encryption.")
  else
    (Status.fail, "Site does not use HTTPS. This is CRITICAL for AdSense approval.")

/-- Check `HTTPS Redirect Check` (weight 15). -/
def httpsRedirectCheck (initialUrl finalResolvedUrl : String) : Status × String :=
  let initial := if strStarts initialUrl "http" then initialUrl else "https://" ++ initialUrl
  if urlProtocol initial = "http:" ∧ urlProtocol finalResolvedUrl = "https:" ∧
      urlHostname initial = urlHostname finalResolvedUrl then
    (Status.pass, "HTTP correctly redirects to HTTPS.")
  else if urlProtocol finalResolvedUrl = "https:" then
    (Status.pass, "Site uses HTTPS.")
  else
    (Status.fail, "No HTTP to HTTPS redirect configured.")

/-- Check `SEO Title Tag` (weight 8).  A missing title and an empty
(falsy) title string take the same branch in the source. -/
def titleCheck (d : Document) : Status × String :=
  let title := d.title.getD ""
  if title = "" then
    (Status.fail, "Missing title tag - critical for SEO.")
  else if title.length < 10 then
    (Status.fail, "Title too short (" ++ toString title.length ++ " chars). Should be 15-60 characters.")
  else if title.length > 60 then
    (Status.warn, "Title too long (" ++ toString title.length ++ " chars). Consider shortening to under 60 characters.")
  else
    (Status.pass, "Good title length: \"" ++ title ++ "\" (" ++ toString title.length ++ " chars)")

/-- Check `Meta Description` (weight 6). -/
def metaDescriptionCheck (d : Document) : Status × String :=
  let metaDesc := d.metaDescription.getD ""
  if metaDesc = "" then
    (Status.fail, "Missing meta description - important for SEO.")
  else if metaDesc.length < 120 then
    (Status.warn, "Meta description short (" ++ toString metaDesc.length ++ " chars). Consider 150-160 characters.")
  else if metaDesc.length > 160 then
    (Status.warn, "Meta description long (" ++ toString metaDesc.length ++ " chars). May be truncated in search results.")
  else
    (Status.pass, "Good meta description length (" ++ toString metaDesc.length ++ " chars).")

/-- The `robotsCheckResult` IIFE: probe `origin + '/robots.txt'` with an
8s timeout; warn on a thrown error or non-ok response, otherwise analyze
the body. -/
def robotsCheck (p : FetchProbe) : Status × String :=
  match p with
  | FetchProbe.err _ =>
    (Status.warn, "Could not analyze robots.txt due to network error.")
  | FetchProbe.notOk =>
    (Status.warn, "robots.txt not found. Consider adding one for better SEO.")
  | FetchProbe.ok text =>
    if isBlocked text then
      (Status.fail, "robots.txt blocks search engine crawlers - this will prevent AdSense approval.")
    else if hasSitemapRef text then
      (Status.pass, "robots.txt configured correctly with sitemap reference.")
    else
      (Status.pass, "robots.txt allows crawling but consider adding sitemap reference.")

/-- Check `Navigation Structure` (weight 10). -/
def navigationCheck (d : Document) : Status × String :=
  if d.navLinkCount ≥ 5 then
    (Status.pass, "Clear navigation with " ++ toString d.navLinkCount ++ " links found.")
  else if d.navLinkCount ≥ 3 then
    (Status.warn, "Navigation found with " ++ toString d.navLinkCount ++ " links. Consider adding more sections.")
  else
    (Status.fail, "Insufficient navigation structure. Add clear menu with multiple sections.")

/-- Check `Privacy Policy Page` (weight 25). -/
def privacyCheck (d : Document) : Status × String :=
  match findLink ["privacy", "policy", "privacy-policy"] d.links with
  | some privacyLink =>
    let href := strLower privacyLink.href
    if strIncludes href "privacy" || strIncludes href "policy" then
      (Status.pass, "Privacy Policy link found - REQUIRED for AdSense.")
    else
      (Status.fail, "Privacy Policy page missing - CRITICAL REQUIREMENT for AdSense approval.")
  | none =>
    (Status.fail, "Privacy Policy page missing - CRITICAL REQUIREMENT for AdSense approval.")

/-- Check `Terms of Service/Use Page` (weight 8). -/
def termsCheck (d : Document) : Status × String :=
  match findLink ["terms", "service", "use", "tos", "terms-of-service"] d.links with
  | some _ => (Status.pass, "Terms of Service page found.")
  | none => (Status.warn, "Terms of Service page recommended for trust signals.")

/-- Check `About Us & Contact Information` (weight 12). -/
def aboutContactCheck (d : Document) : Status × String :=
  let hasAbout := findLink ["about", "about-us"] d.links
  let hasContact := findLink ["contact", "contact-us"] d.links
  if hasAbout.isSome ∧ hasContact.isSome then
    (Status.pass, "Both About and Contact pages found.")
  else if hasAbout.isSome ∨ hasContact.isSome then
    (Status.warn, "Missing " ++ (if hasAbout.isSome then "Contact" else "About") ++ " page. Both recommended.")
  else
    (Status.fail, "Both About and Contact pages missing - important for trust.")

/-- Check `Mobile Responsiveness` (weight 10).  A missing viewport meta
and a viewport meta with empty content take the same (fail) branch. -/
def mobileCheck (d : Document) : Status × String :=
  if strIncludes (d.viewport.getD "") "width=device-width" then
    if d.hasResponsiveCss then
      (Status.pass, "Mobile-optimized with viewport tag and responsive CSS.")
    else
      (Status.warn, "Viewport tag found but responsive CSS unclear.")
  else
    (Status.fail, "Missing viewport meta tag - essential for mobile users.")

/-- Check `Content Volume` (weight 20). -/
def contentVolumeCheck (d : Document) : Status × String :=
  let wc := wordCount d.bodyText
  if wc > 1500 then
    (Status.pass, "Good content volume (~" ++ toString wc ++ " words).")
  else if wc > 800 then
    (Status.warn, "Moderate content (~" ++ toString wc ++ " words). AdSense prefers sites with substantial content (1500+ words per page).")
  else if wc > 300 then
    (Status.fail, "Low content volume (~" ++ toString wc ++ " words). AdSense requires substantial, valuable content.")
  else
    (Status.fail, "Insufficient content (~" ++ toString wc ++ " words). AdSense typically rejects sites with minimal content.")

/-- Check `Heading Structure (SEO)` (weight 5). -/
def headingCheck (d : Document) : Status × String :=
  if d.h1Count = 1 ∧ d.headingCount ≥ 3 then
    (Status.pass, "Good heading structure: 1 H1, " ++ toString d.headingCount ++ " total headings.")
  else if d.h1Count = 1 then
    (Status.warn, "H1 found but consider adding more subheadings (H2, H3).")
  else if d.h1Count > 1 then
    (Status.warn, "Multiple H1 tags found (" ++ toString d.h1Count ++ "). Use only one H1 per page.")
  else
    (Status.fail, "No H1 heading found. Add proper heading structure.")

/-- Check `Image Optimization` (weight 4). -/
def imageCheck (d : Document) : Status × String :=
  if d.imgCount = 0 then
    (Status.warn, "No images found. Visual content improves user engagement.")
  else
    let altPercentage : ℚ := ((d.imgAltCount : ℚ) / (d.imgCount : ℚ)) * 100
    if altPercentage ≥ 80 then
      (Status.pass, "Good image accessibility: " ++ toString d.imgAltCount ++ "/" ++ toString d.imgCount ++ " images have alt text.")
    else if altPercentage ≥ 50 then
      (Status.warn, "Some images missing alt text: " ++ toString d.imgAltCount ++ "/" ++ toString d.imgCount ++ ". Add for accessibility.")
    else
      (Status.fail, "Poor image accessibility: only " ++ toString d.imgAltCount ++ "/" ++ toString d.imgCount ++ " images have alt text.")

/-- Check `Language Declaration` (weight 3): `lang ? pass : warn`
(a present but empty attribute is falsy). -/
def languageCheck (d : Document) : Status × String :=
  match d.lang with
  | some l =>
    if l = "" then
      (Status.warn, "No language declaration. Add lang attribute to <html> tag.")
    else
      (Status.pass, "Language declared as \"" ++ l ++ "\".")
  | none =>
    (Status.warn, "No language declaration. Add lang attribute to <html> tag.")

/-- Check `Favicon Present` (weight 2). -/
def faviconCheck (d : Document) : Status × String :=
  if d.hasFavicon then
    (Status.pass, "Favicon found - good for branding.")
  else
    (Status.warn, "Favicon missing. Add for professional appearance.")

/-- Check `Page Load Speed Indicator` (weight 3). -/
def pageSpeedCheck (responseTime : ℤ) : Status × String :=
  if responseTime < 3000 then
    (Status.pass, "Good response time: " ++ toString responseTime ++ "ms")
  else if responseTime < 5000 then
    (Status.warn, "Moderate response time: " ++ toString responseTime ++ "ms. Consider optimization.")
  else
    (Status.fail, "Slow response time: " ++ toString responseTime ++ "ms. Optimize for better user experience.")

/-- Check `Error Page Detection` (weight 5). -/
def errorPageCheck (d : Document) : Status × String :=
  let text := strLower d.bodyText
  let errorIndicators := ["404", "page not found", "error", "not found", "does not exist"]
  if errorIndicators.any (fun ind => strIncludes text ind) then
    (Status.fail, "Potential error page or broken content detected.")
  else
    (Status.pass, "No obvious error indicators found.")

/-- Check `Social Media Integration` (weight 3). -/
def socialCheck (d : Document) : Status × String :=
  let platforms := ["facebook.com", "twitter.com", "instagram.com", "linkedin.com", "youtube.com"]
  let socialLinks := d.links.filter (fun l =>
    platforms.any (fun pf => strIncludes (strLower l.href) pf))
  if socialLinks.length ≥ 2 then
    (Status.pass, "Social media links found (" ++ toString socialLinks.length ++ "). Good for trust signals.")
  else if socialLinks.length = 1 then
    (Status.warn, "Limited social media presence. Consider adding more platforms.")
  else
    (Status.warn, "No social media links found. Consider adding for trust signals.")

/-- Check `Google Analytics Installed` (weight 7): some script source or
inline text matches a known analytics signature. -/
def analyticsCheck (d : Document) : Status × String :=
  if d.hasAnalytics then
    (Status.pass, "Google Analytics script detected. This is a good sign of a well-managed site.")
  else
    (Status.warn, "Google Analytics script not found. Tracking site traffic is highly recommended.")

/-- The `adsTxtCheckResult` IIFE: probe `origin + '/ads.txt'`. -/
def adsTxtCheck (p : FetchProbe) : Status × String :=
  match p with
  | FetchProbe.err _ =>
    (Status.warn, "Could not analyze ads.txt due to a network error.")
  | FetchProbe.notOk =>
    (Status.warn, "ads.txt file not found. This is recommended for all publishers.")
  | FetchProbe.ok text =>
    if strIncludes text "google.com, pub-" then
      (Status.pass, "ads.txt file found and seems to contain a Google publisher ID.")
    else
      (Status.warn, "ads.txt file found, but it does not appear to contain a Google publisher ID.")

/-- Check `Structured Data (Schema.org)` (weight 6). -/
def structuredDataCheck (d : Document) : Status × String :=
  if d.hasJsonLd then
    (Status.pass, "Structured data (JSON-LD) found. This helps search engines understand your content.")
  else
    (Status.warn, "No structured data (JSON-LD) found. Consider adding it to improve SEO.")

/-- Check `Main Content Volume` (weight 15): falls back to the body
when no main-content element is detected. -/
def mainContentCheck (d : Document) : Status × String :=
  let textContent := d.mainText.getD d.bodyText
  let wc := wordCount textContent
  if wc > 1000 then
    (Status.pass, "Excellent main content volume (~" ++ toString wc ++ " words).")
  else if wc > 500 then
    (Status.warn, "Sufficient main content (~" ++ toString wc ++ " words), but more is better for AdSense.")
  else
    (Status.fail, "Low main content volume (~" ++ toString wc ++ " words). This is a major red flag for AdSense.")

/-! ### The `runCheck` harness and the registry -/

/-- A declared check, with its predicate already applied to the fixed
analysis inputs.  A predicate that throws is an `Except.error` carrying
the thrown message. -/
structure CheckSpec where
  name : String
  category : String
  weight : ℚ
  predicate : Except String (Status × String)

/-- The score contribution of a status:
`if pass score += weight; else if warn score += weight / 2`. -/
def scoreAdd (weight : ℚ) (st : Status) : ℚ :=
  if st = Status.pass then weight else if st = Status.warn then weight / 2 else 0

/-- One `runCheck` call: push `{name, category, weight, ...result}` and
bump the score, or catch a thrown predicate and push a `fail` result
with a synthetic message (contributing no score). -/
def runCheckStep (s : CheckSpec) : CheckResult × ℚ :=
  match s.predicate with
  | Except.ok r =>
    ({ name := s.name, category := s.category, weight := some s.weight,
       status := r.1, message := r.2 }, scoreAdd s.weight r.1)
  | Except.error e =>
    ({ name := s.name, category := s.category, weight := some s.weight,
       status := Status.fail, message := "Check failed: " ++ e }, 0)

/-- Run every declared check in order, collecting results and the score. -/
def runAll : List CheckSpec → List CheckResult × ℚ
  | [] => ([], 0)
  | s :: rest =>
    let r := runCheckStep s
    let rs := runAll rest
    (r.1 :: rs.1, r.2 + rs.2)

/-- The inputs one analysis run consumes. -/
structure AnalysisInput where
  initialUrl : String
  finalResolvedUrl : String
  responseTime : ℤ
  doc : Document
  robotsProbe : FetchProbe
  adsProbe : FetchProbe

/-- The ordered check registry of `/api/analyze-url`, exactly in source
declaration order.  The robots.txt and ads.txt results are pushed
directly in the source with the same score rule as `runCheck`
(pass adds the weight, warn half of it), so they run through the same
step function here. -/
def checkSpecs (inp : AnalysisInput) : List CheckSpec :=
  [ { name := "Secure Connection (HTTPS/SSL)", category := CAT_AUTO, weight := 20,
      predicate := Except.ok (secureConnCheck inp.finalResolvedUrl) },
    { name := "HTTPS Redirect Check", category := CAT_AUTO, weight := 15,
      predicate := Except.ok (httpsRedirectCheck inp.initialUrl inp.finalResolvedUrl) },
    { name := "SEO Title Tag", category := CAT_PERFORMANCE, weight := 8,
      predicate := Except.ok (titleCheck inp.doc) },
    { name := "Meta Description", category := CAT_PERFORMANCE, weight := 6,
      predicate := Except.ok (metaDescriptionCheck inp.doc) },
    { name := "Robots.txt Configuration", category := CAT_PERFORMANCE, weight := 12,
      predicate := Except.ok (robotsCheck inp.robotsProbe) },
    { name := "Navigation Structure", category := CAT_STRUCT_ACC, weight := 10,
      predicate := Except.ok (navigationCheck inp.doc) },
    { name := "Privacy Policy Page", category := CAT_STRUCT_ACC, weight := 25,
      predicate := Except.ok (privacyCheck inp.doc) },
    { name := "Terms of Service/Use Page", category := CAT_STRUCT_ACC, weight := 8,
      predicate := Except.ok (termsCheck inp.doc) },
    { name := "About Us & Contact Information", category := CAT_STRUCT_ACC, weight := 12,
      predicate := Except.ok (aboutContactCheck inp.doc) },
    { name := "Mobile Responsiveness", category := CAT_STRUCT_ACC, weight := 10,
      predicate := Except.ok (mobileCheck inp.doc) },
    { name := "Content Volume", category := CAT_CONTENT, weight := 20,
      predicate := Except.ok (contentVolumeCheck inp.doc) },
    { name := "Heading Structure (SEO)", category := CAT_PERFORMANCE, weight := 5,
      predicate := Except.ok (headingCheck inp.doc) },
    { name := "Image Optimization", category := CAT_PERFORMANCE, weight := 4,
      predicate := Except.ok (imageCheck inp.doc) },
    { name := "Language Declaration", category := CAT_STRUCT_ACC, weight := 3,
      predicate := Except.ok (languageCheck inp.doc) },
    { name := "Favicon Present", category := CAT_STRUCT_ACC, weight := 2,
      predicate := Except.ok (faviconCheck inp.doc) },
    { name := "Page Load Speed Indicator", category := CAT_PERFORMANCE, weight := 3,
      predicate := Except.ok (pageSpeedCheck inp.responseTime) },
    { name := "Error Page Detection", category := CAT_STRUCT_ACC, weight := 5,
      predicate := Except.ok (errorPageCheck inp.doc) },
    { name := "Social Media Integration", category := CAT_CONTENT, weight := 3,
      predicate := Except.ok (socialCheck inp.doc) },
    { name := "Google Analytics Installed", category := CAT_PERFORMANCE, weight := 7,
      predicate := Except.ok (analyticsCheck inp.doc) },
    { name := "Ads.txt Presence", category := CAT_AUTO, weight := 10,
      predicate := Except.ok (adsTxtCheck inp.adsProbe) },
    { name := "Structured Data (Schema.org)", category := CAT_PERFORMANCE, weight := 6,
      predicate := Except.ok (structuredDataCheck inp.doc) },
    { name := "Main Content Volume", category := CAT_CONTENT, weight := 15,
      predicate := Except.ok (mainContentCheck inp.doc) } ]

/-- The three manual advisory entries: pushed at the end of the list,
with no `weight` property. -/
def manualChecks : List CheckResult :=
  [ { name := "Content Originality & Quality", category := CAT_CONTENT, weight := none,
      status := Status.manual,
      message := "Ensure all content is original, well-written, and provides value to users. No copied content allowed." },
    { name := "Content Policy Compliance", category := CAT_CONTENT, weight := none,
      status := Status.manual,
      message := "Verify content complies with AdSense policies: no adult content, violence, illegal activities, etc." },
    { name := "User Experience & Site Design", category := CAT_CONTENT, weight := none,
      status := Status.manual,
      message := "Ensure professional design, easy navigation, fast loading, and good user experience." } ]

/-- One analysis run (after retrieval and parsing succeed): the ordered
check result list and the accumulated raw score. -/
def analyze (inp : AnalysisInput) : List CheckResult × ℚ :=
  let r := runAll (checkSpecs inp)
  (r.1 ++ manualChecks, r.2)

/-! ### The Scorer -/

/-- JavaScript `Math.round` (round half toward positive infinity). -/
def jsRound (q : ℚ) : ℤ := ⌊q + 1 / 2⌋

/-- `totalPossibleWeight`: sum of the weights of the non-manual checks
(every non-manual check carries a weight, so `getD 0` never fires). -/
def totalPossibleWeight (checks : List CheckResult) : ℚ :=
  ((checks.filter (fun c => c.status != Status.manual)).map (fun c => c.weight.getD 0)).sum

/-- `finalScore` before penalties:
`totalPossibleWeight > 0 ? Math.round((score / totalPossibleWeight) * 100) : 0`. -/
def baseFinalScore (checks : List CheckResult) (score : ℚ) : ℤ :=
  if 0 < totalPossibleWeight checks then jsRound (score / totalPossibleWeight checks * 100) else 0

/-- The critical-name test of the penalty filter: case-sensitive
`String.prototype.includes` on the four fragments. -/
def criticalNameB (n : String) : Bool :=
  strIncludes n "Privacy Policy" || strIncludes n "HTTPS" ||
    strIncludes n "Content Volume" || strIncludes n "robots.txt"

/-- `criticalChecks`: fail-status checks whose name contains one of the
critical fragments. -/
def criticalChecks (checks : List CheckResult) : List CheckResult :=
  checks.filter (fun c => c.status == Status.fail && criticalNameB c.name)

/-- Number of fail-status checks. -/
def failedCount (checks : List CheckResult) : Nat :=
  (checks.filter (fun c => c.status == Status.fail)).length

/-- Final score and penalty notes. -/
structure ScoreOutcome where
  finalScore : ℤ
  penalties : List String
deriving DecidableEq, Repr

/-- The scoring tail of `/api/analyze-url`: percentage score, critical
penalty, multiple-failure penalty, critical cap at 65, clamp at 100. -/
def scorer (checks : List CheckResult) (score : ℚ) : ScoreOutcome :=
  let base := baseFinalScore checks score
  let crit := (criticalChecks checks).length
  let s1 : ℤ := if 0 < crit then max 0 (base - (15 * (crit : ℤ))) else base
  let p1 : List String :=
    if 0 < crit then ["Critical issues detected: -" ++ toString (15 * crit) ++ "%"] else []
  let failed := failedCount checks
  let s2 : ℤ := if 5 < failed then max 0 (s1 - (3 * ((failed : ℤ) - 5))) else s1
  let p2 : List String :=
    if 5 < failed then p1 ++ ["Multiple failures: -" ++ toString (3 * (failed - 5)) ++ "%"] else p1
  let s3 : ℤ := if 0 < crit then min s2 65 else s2
  { finalScore := min s3 100, penalties := p2 }

/-! ### The Retriever (`fetchWithRedirects`) and its call site

The network is modelled as a deterministic map from URL to response.
`resp status statusText location` is a settled HTTP response carrying
the `location` header when present; `err` is a rejected fetch promise
(network failure); `timeout` is a fetch aborted by the 30s
`AbortController` (an `AbortError`). -/

inductive NetResult where
  | resp (status : Nat) (statusText : String) (location : Option String)
  | err (msg : String)
  | timeout
deriving DecidableEq, Repr

/-- `new URL(location, finalUrl).href`, modelled for absolute locations
and root-relative paths (the only shapes the development exercises):
an absolute location resolves to itself, anything else is joined onto
the origin of the base URL. -/
def resolveUrl (location base : String) : String :=
  if strStarts location "http://" || strStarts location "https://" then location
  else urlProtocol base ++ "//" ++ urlHostname base ++ location

/-- The redirect loop of `fetchWithRedirects` (`for i = 0; i < maxRedirects`):
each iteration issues one request; a 3xx response with a location header
re-targets the loop, anything else breaks.  Returns the final URL and
the number of requests issued by the loop.  A thrown `AbortError` is
re-thrown as the timeout message; other errors propagate unchanged. -/
def fwrLoop (net : String → NetResult) : Nat → String → Nat → Except String (String × Nat)
  | 0, finalUrl, issued => Except.ok (finalUrl, issued)
  | fuel + 1, finalUrl, issued =>
    match net finalUrl with
    | NetResult.timeout => Except.error "Request timeout - website took too long to respond"
    | NetResult.err m => Except.error m
    | NetResult.resp status _ location =>
      match location with
      | some loc =>
        if 300 ≤ status ∧ status < 400 then
          fwrLoop net fuel (resolveUrl loc finalUrl) (issued + 1)
        else Except.ok (finalUrl, issued + 1)
      | none => Except.ok (finalUrl, issued + 1)

/-- `fetchWithRedirects(url)` with `maxRedirects = 5`: run the loop and
then always issue one more unconditional request to the last computed
URL (`return fetch(finalUrl, defaultOptions)`), whose response is what
the caller receives.  Result: final URL, status, statusText, and the
total number of requests issued.  (The final request carries no abort
controller; a request that never settles is modelled as an error.) -/
def fetchWithRedirects (net : String → NetResult) (url : String) :
    Except String (String × Nat × String × Nat) :=
  match fwrLoop net 5 url 0 with
  | Except.error e => Except.error e
  | Except.ok (finalUrl, issued) =>
    match net finalUrl with
    | NetResult.timeout => Except.error "Request timeout - website took too long to respond"
    | NetResult.err m => Except.error m
    | NetResult.resp status statusText _ => Except.ok (finalUrl, status, statusText, issued + 1)

/-- `response.ok`: status in [200, 300). -/
def isOkStatus (s : Nat) : Bool := 200 ≤ s && s < 300

/-- `targetUrl.replace('https://', 'http://')` on an https URL
(the first occurrence is the scheme prefix). -/
def toHttp (u : String) : String := "http://" ++ strDrop u 8

/-- The catch block of the fetch section wraps any thrown message. -/
def httpErrorMsg (e : String) : String :=
  "Failed to access website: " ++ e ++ ". Please check if the URL is correct and the website is accessible."

/-- The thrown `Server responded with status ...` message. -/
def statusErrorMsg (status : Nat) (statusText : String) : String :=
  "Server responded with status " ++ toString status ++ ": " ++ statusText

/-- The fetch block of `/api/analyze-url` (lines 117-140): fetch the
target; when the response is not ok and the target is https, retry once
over plain http; when the final response is still not ok, throw.  Every
throw is caught and surfaces as the terminal 500 error message.
Returns the reachable final URL and status on success. -/
def analyzeFetch (net : String → NetResult) (targetUrl : String) :
    Except String (String × Nat) :=
  match fetchWithRedirects net targetUrl with
  | Except.error e => Except.error (httpErrorMsg e)
  | Except.ok (u, status, statusText, _) =>
    if isOkStatus status then Except.ok (u, status)
    else if strStarts targetUrl "https://" then
      match fetchWithRedirects net (toHttp targetUrl) with
      | Except.error e => Except.error (httpErrorMsg e)
      | Except.ok (u2, s2, st2, _) =>
        if isOkStatus s2 then Except.ok (u2, s2)
        else Except.error (httpErrorMsg (statusErrorMsg s2 st2))
    else Except.error (httpErrorMsg (statusErrorMsg status statusText))

/-! ### Derived scoring notions used by the statements -/

/-- The names of the declared checks, in registry declaration order
(22 automated entries followed by the three manual entries). -/
def declaredCheckNames : List String :=
  [ "Secure Connection (HTTPS/SSL)", "HTTPS Redirect Check", "SEO Title Tag",
    "Meta Description", "Robots.txt Configuration", "Navigation Structure",
    "Privacy Policy Page", "Terms of Service/Use Page", "About Us & Contact Information",
    "Mobile Responsiveness", "Content Volume", "Heading Structure (SEO)",
    "Image Optimization", "Language Declaration", "Favicon Present",
    "Page Load Speed Indicator", "Error Page Detection", "Social Media Integration",
    "Google Analytics Installed", "Ads.txt Presence", "Structured Data (Schema.org)",
    "Main Content Volume", "Content Originality & Quality", "Content Policy Compliance",
    "User Experience & Site Design" ]

/-- Per-result contribution to `totalPossibleWeight`. -/
def twContrib (c : CheckResult) : ℚ :=
  if c.status != Status.manual then c.weight.getD 0 else 0

/-- Per-result contribution to the raw score (`pass` full weight,
`warn` half, otherwise nothing). -/
def contrib (c : CheckResult) : ℚ :=
  if c.status = Status.pass then c.weight.getD 0
  else if c.status = Status.warn then c.weight.getD 0 / 2
  else 0

/-- `rawScore` as a pure function of the result list. -/
def rawScore (l : List CheckResult) : ℚ := (l.map contrib).sum

/-- A redirect chain: from `u`, the network answers a 3xx redirect onto
each successive (absolute) URL of `vs`, and the last URL answers 200
with no location header. -/
def ChainTo (net : String → NetResult) : String → List String → Prop
  | u, [] => ∃ st, net u = NetResult.resp 200 st none
  | u, v :: vs =>
    (∃ s st, 300 ≤ s ∧ s < 400 ∧ net u = NetResult.resp s st (some v)) ∧
    (strStarts v "http://" || strStarts v "https://") = true ∧
    ChainTo net v vs

/-! ### Concrete instances used by counterexamples and witnesses -/

/-- An empty-ish document (error page with no content). -/
def docMin : Document :=
  { title := none, metaDescription := none, navLinkCount := 0, links := [],
    viewport := none, hasResponsiveCss := false, bodyText := "", h1Count := 0,
    headingCount := 0, imgCount := 0, imgAltCount := 0, lang := none,
    hasFavicon := false, hasAnalytics := false, hasJsonLd := false, mainText := none }

/-- An analysis of a secure page whose robots.txt blocks all crawlers. -/
def inpC1 : AnalysisInput :=
  { initialUrl := "example.com", finalResolvedUrl := "https://example.com/",
    responseTime := 1000, doc := docMin,
    robotsProbe := FetchProbe.ok "User-agent: *\nDisallow: /",
    adsProbe := FetchProbe.notOk }

/-- A body of exactly 200 countable words. -/
def body200 : String := String.mk (List.flatten (List.replicate 200 ['w', 'o', 'r', 'd', ' ']))

/-- A 130-character meta description. -/
def metaDescC2 : String := String.mk (List.replicate 130 'a')

/-- The insecure-page scenario document: no privacy-policy link,
200 words of content, no detected main-content element, everything
else healthy. -/
def docC2 : Document :=
  { title := some "Welcome to Example Site", metaDescription := some metaDescC2,
    navLinkCount := 5,
    links := [ { href := "https://site.example/about-us", text := "About" },
               { href := "https://site.example/reach", text := "Reach" } ],
    viewport := some "width=device-width, initial-scale=1", hasResponsiveCss := true,
    bodyText := body200, h1Count := 1, headingCount := 3, imgCount := 0, imgAltCount := 0,
    lang := some "en", hasFavicon := true, hasAnalytics := true, hasJsonLd := true,
    mainText := none }

/-- The insecure-page scenario: plain http, no redirect to https. -/
def inpC2 : AnalysisInput :=
  { initialUrl := "http://site.example/", finalResolvedUrl := "http://site.example/",
    responseTime := 1200, doc := docC2,
    robotsProbe := FetchProbe.ok "Sitemap: https://site.example/sitemap.xml",
    adsProbe := FetchProbe.ok "google.com, pub-1234567890" }

/-- A robots.txt body that allows crawling but has no sitemap entry. -/
def robotsNoSitemap : String := "User-agent: *\nAllow: /"

/-- A network on which every URL immediately answers 200. -/
def netC4a : String → NetResult := fun _ => NetResult.resp 200 "OK" none

/-- A network with one redirect hop. -/
def netC4b (u : String) : NetResult :=
  if u = "http://a.example/" then NetResult.resp 301 "Moved Permanently" (some "http://b.example/")
  else NetResult.resp 200 "OK" none

/-- A network on which every https request throws and every http
request answers 200. -/
def netC5 (u : String) : NetResult :=
  if strStarts u "https://" then NetResult.err "connection refused"
  else NetResult.resp 200 "OK" none

/-- A network on which https answers a 500 response and http answers 200. -/
def netC5b (u : String) : NetResult :=
  if strStarts u "https://" then NetResult.resp 500 "Internal Server Error" none
  else NetResult.resp 200 "OK" none

/-- A two-check registry whose first predicate throws. -/
def specsC6 : List CheckSpec :=
  [ { name := "Throwing Check", category := "Test", weight := 5,
      predicate := Except.error "boom" },
    { name := "Passing Check", category := "Test", weight := 3,
      predicate := Except.ok (Status.pass, "ok") } ]

/-- A document with headings but no H1. -/
def docNoH1 : Document :=
  { docMin with h1Count := 0, headingCount := 5 }

/-- A single failing weighted check. -/
def oneCheckC9 : CheckResult :=
  { name := "HTTPS Redirect Check", category := CAT_AUTO, weight := some 15,
    status := Status.fail, message := "No HTTP to HTTPS redirect configured." }

/-! ### Helper lemmas -/

lemma critB_secure : criticalNameB "Secure Connection (HTTPS/SSL)" = true := by decide

lemma critB_redirect : criticalNameB "HTTPS Redirect Check" = true := by decide

lemma critB_title : criticalNameB "SEO Title Tag" = false := by decide

lemma critB_meta : criticalNameB "Meta Description" = false := by decide

lemma critB_robots : criticalNameB "Robots.txt Configuration" = false := by decide

lemma critB_nav : criticalNameB "Navigation Structure" = false := by decide

lemma critB_privacy : criticalNameB "Privacy Policy Page" = true := by decide

lemma critB_terms : criticalNameB "Terms of Service/Use Page" = false := by decide

lemma critB_about : criticalNameB "About Us & Contact Information" = false := by decide

lemma critB_mobile : criticalNameB "Mobile Responsiveness" = false := by decide

lemma critB_content : criticalNameB "Content Volume" = true := by decide

lemma critB_heading : criticalNameB "Heading Structure (SEO)" = false := by decide

lemma critB_image : criticalNameB "Image Optimization" = false := by decide

lemma critB_language : criticalNameB "Language Declaration" = false := by decide

lemma critB_favicon : criticalNameB "Favicon Present" = false := by decide

lemma critB_speed : criticalNameB "Page Load Speed Indicator" = false := by decide

lemma critB_errorPage : criticalNameB "Error Page Detection" = false := by decide

lemma critB_social : criticalNameB "Social Media Integration" = false := by decide

lemma critB_analytics : criticalNameB "Google Analytics Installed" = false := by decide

lemma critB_ads : criticalNameB "Ads.txt Presence" = false := by decide

lemma critB_structured : criticalNameB "Structured Data (Schema.org)" = false := by decide

lemma critB_mainContent : criticalNameB "Main Content Volume" = true := by decide

lemma critB_manualA : criticalNameB "Content Originality & Quality" = false := by decide

lemma critB_manualB : criticalNameB "Content Policy Compliance" = false := by decide

lemma critB_manualC : criticalNameB "User Experience & Site Design" = false := by decide

lemma secureConn_fail {u : String} (h : strStarts u "https://" = false) :
    (secureConnCheck u).1 = Status.fail := by
  simp [secureConnCheck, h]

lemma urlProtocol_ne_https {u : String} (h : strStarts u "https://" = false) :
    urlProtocol u ≠ "https:" := by
  unfold urlProtocol
  simp only [h, Bool.false_eq_true, if_false]
  split <;> decide

lemma httpsRedirect_fail {i u : String} (h : strStarts u "https://" = false) :
    (httpsRedirectCheck i u).1 = Status.fail := by
  have hne := urlProtocol_ne_https h
  simp [httpsRedirectCheck, hne]

lemma privacy_fail {d : Document}
    (h : findLink ["privacy", "policy", "privacy-policy"] d.links = none) :
    (privacyCheck d).1 = Status.fail := by
  simp [privacyCheck, h]

lemma contentVolume_fail {d : Document} (h : wordCount d.bodyText = 200) :
    (contentVolumeCheck d).1 = Status.fail := by
  simp [contentVolumeCheck, h]

lemma mainContent_fail {d : Document} (h4 : d.mainText = none)
    (h3 : wordCount d.bodyText = 200) :
    (mainContentCheck d).1 = Status.fail := by
  simp [mainContentCheck, h4, h3]

lemma secureConn_not_manual (u : String) :
    ((secureConnCheck u).1 != Status.manual) = true := by
  simp only [secureConnCheck]; repeat' split
  all_goals rfl

lemma httpsRedirect_not_manual (i u : String) :
    ((httpsRedirectCheck i u).1 != Status.manual) = true := by
  simp only [httpsRedirectCheck]; repeat' split
  all_goals rfl

lemma titleCheck_not_manual (d : Document) :
    ((titleCheck d).1 != Status.manual) = true := by
  simp only [titleCheck]; repeat' split
  all_goals rfl

lemma metaDescription_not_manual (d : Document) :
    ((metaDescriptionCheck d).1 != Status.manual) = true := by
  simp only [metaDescriptionCheck]; repeat' split
  all_goals rfl

lemma robotsCheck_not_manual (p : FetchProbe) :
    ((robotsCheck p).1 != Status.manual) = true := by
  simp only [robotsCheck]; repeat' split
  all_goals rfl

lemma navigationCheck_not_manual (d : Document) :
    ((navigationCheck d).1 != Status.manual) = true := by
  simp only [navigationCheck]; repeat' split
  all_goals rfl

lemma privacyCheck_not_manual (d : Document) :
    ((privacyCheck d).1 != Status.manual) = true := by
  simp only [privacyCheck]; repeat' split
  all_goals rfl

lemma termsCheck_not_manual (d : Document) :
    ((termsCheck d).1 != Status.manual) = true := by
  simp only [termsCheck]; repeat' split
  all_goals rfl

lemma aboutContact_not_manual (d : Document) :
    ((aboutContactCheck d).1 != Status.manual) = true := by
  simp only [aboutContactCheck]; repeat' split
  all_goals rfl

lemma mobileCheck_not_manual (d : Document) :
    ((mobileCheck d).1 != Status.manual) = true := by
  simp only [mobileCheck]; repeat' split
  all_goals rfl

lemma contentVolume_not_manual (d : Document) :
    ((contentVolumeCheck d).1 != Status.manual) = true := by
  simp only [contentVolumeCheck]; repeat' split
  all_goals rfl

lemma headingCheck_not_manual (d : Document) :
    ((headingCheck d).1 != Status.manual) = true := by
  simp only [headingCheck]; repeat' split
  all_goals rfl

lemma imageCheck_not_manual (d : Document) :
    ((imageCheck d).1 != Status.manual) = true := by
  simp only [imageCheck]; repeat' split
  all_goals rfl

lemma languageCheck_not_manual (d : Document) :
    ((languageCheck d).1 != Status.manual) = true := by
  simp only [languageCheck]; repeat' split
  all_goals rfl

lemma faviconCheck_not_manual (d : Document) :
    ((faviconCheck d).1 != Status.manual) = true := by
  simp only [faviconCheck]; repeat' split
  all_goals rfl

lemma pageSpeed_not_manual (t : ℤ) :
    ((pageSpeedCheck t).1 != Status.manual) = true := by
  simp only [pageSpeedCheck]; repeat' split
  all_goals rfl

lemma errorPage_not_manual (d : Document) :
    ((errorPageCheck d).1 != Status.manual) = true := by
  simp only [errorPageCheck]; repeat' split
  all_goals rfl

lemma socialCheck_not_manual (d : Document) :
    ((socialCheck d).1 != Status.manual) = true := by
  simp only [socialCheck]; repeat' split
  all_goals rfl

lemma analyticsCheck_not_manual (d : Document) :
    ((analyticsCheck d).1 != Status.manual) = true := by
  simp only [analyticsCheck]; repeat' split
  all_goals rfl

lemma adsTxtCheck_not_manual (p : FetchProbe) :
    ((adsTxtCheck p).1 != Status.manual) = true := by
  simp only [adsTxtCheck]; repeat' split
  all_goals rfl

lemma structuredData_not_manual (d : Document) :
    ((structuredDataCheck d).1 != Status.manual) = true := by
  simp only [structuredDataCheck]; repeat' split
  all_goals rfl

lemma mainContent_not_manual (d : Document) :
    ((mainContentCheck d).1 != Status.manual) = true := by
  simp only [mainContentCheck]; repeat' split
  all_goals rfl

lemma totalPossibleWeight_eq_sum (l : List CheckResult) :
    totalPossibleWeight l = (l.map twContrib).sum := by
  induction l with
  | nil => rfl
  | cons a t ih =>
    unfold totalPossibleWeight at *
    cases h : (a.status != Status.manual) <;>
      simp [List.filter_cons, h, twContrib, ih]

lemma map_sum_set (f : CheckResult → ℚ) :
    ∀ (l : List CheckResult) (i : Nat) (c c' : CheckResult), l[i]? = some c →
      (((l.set i c').map f).sum = (l.map f).sum - f c + f c') := by
  intro l
  induction l with
  | nil => intro i c c' h; simp at h
  | cons a t ih =>
    intro i c c' h
    cases i with
    | zero =>
      simp only [List.getElem?_cons_zero, Option.some.injEq] at h
      subst h
      simp [List.set]
      ring
    | succ n =>
      simp only [List.getElem?_cons_succ] at h
      show (List.map f (a :: t.set n c')).sum = _
      simp only [List.map_cons, List.sum_cons, ih n c c' h]
      ring

lemma jsRound_mono {a b : ℚ} (h : a ≤ b) : jsRound a ≤ jsRound b := by
  unfold jsRound
  exact Int.floor_le_floor (by linarith)

lemma baseFinalScore_mono (l : List CheckResult) {q q' : ℚ} (h : q ≤ q') :
    baseFinalScore l q ≤ baseFinalScore l q' := by
  unfold baseFinalScore
  split
  · next hT =>
    apply jsRound_mono
    exact mul_le_mul_of_nonneg_right ((div_le_div_iff_of_pos_right hT).mpr h) (by norm_num)
  · exact le_refl 0

lemma runAll_names (specs : List CheckSpec) :
    (runAll specs).1.map (fun c => c.name) = specs.map (fun s => s.name) := by
  induction specs with
  | nil => rfl
  | cons s rest ih =>
    cases hp : s.predicate <;> simp [runAll, runCheckStep, hp, ih]

lemma runAll_error (specs : List CheckSpec) :
    ∀ (i : Nat) (s : CheckSpec) (e : String), specs[i]? = some s →
      s.predicate = Except.error e →
      (runAll specs).1[i]? = some
        { name := s.name, category := s.category, weight := some s.weight,
          status := Status.fail, message := "Check failed: " ++ e } := by
  induction specs with
  | nil => intro i s e h _; simp at h
  | cons a rest ih =>
    intro i s e h hp
    cases i with
    | zero =>
      simp only [List.getElem?_cons_zero, Option.some.injEq] at h
      subst h
      simp [runAll, runCheckStep, hp]
    | succ n =>
      simp only [List.getElem?_cons_succ] at h
      simpa [runAll] using ih n s e h hp

lemma analyze_names (inp : AnalysisInput) :
    (analyze inp).1.map (fun c => c.name) = declaredCheckNames := by
  simp [analyze, checkSpecs, runAll, runCheckStep, manualChecks, declaredCheckNames]

lemma runAll_score_eq (specs : List CheckSpec) :
    (runAll specs).2 = rawScore (runAll specs).1 := by
  induction specs with
  | nil => rfl
  | cons s rest ih =>
    cases hp : s.predicate with
    | ok r =>
      cases hr : r.1 <;>
        simp [runAll, runCheckStep, hp, rawScore, contrib, scoreAdd, hr, ih]
    | error e =>
      simp [runAll, runCheckStep, hp, rawScore, contrib, ih]

lemma rawScore_append (l1 l2 : List CheckResult) :
    rawScore (l1 ++ l2) = rawScore l1 + rawScore l2 := by
  simp [rawScore]

lemma rawScore_manual : rawScore manualChecks = 0 := by
  simp [rawScore, manualChecks, contrib]

lemma analyze_score_eq (inp : AnalysisInput) :
    (analyze inp).2 = rawScore (analyze inp).1 := by
  show (runAll (checkSpecs inp)).2 = rawScore ((runAll (checkSpecs inp)).1 ++ manualChecks)
  rw [rawScore_append, rawScore_manual, add_zero]
  exact runAll_score_eq _

lemma chainTo_last (net : String → NetResult) :
    ∀ (vs : List String) (u : String), ChainTo net u vs →
      ∃ st, net (vs.getLastD u) = NetResult.resp 200 st none := by
  intro vs
  induction vs with
  | nil => intro u h; simpa [ChainTo] using h
  | cons v t ih =>
    intro u h
    obtain ⟨-, -, hch⟩ := h
    rw [List.getLastD_cons]
    exact ih v hch

lemma fwrLoop_chain (net : String → NetResult) :
    ∀ (vs : List String) (u : String) (k fuel : Nat), ChainTo net u vs →
      (vs.length < fuel →
        fwrLoop net fuel u k = Except.ok (vs.getLastD u, k + vs.length + 1)) ∧
      (vs.length = fuel →
        fwrLoop net fuel u k = Except.ok (vs.getLastD u, k + vs.length)) := by
  intro vs
  induction vs with
  | nil =>
    intro u k fuel h
    obtain ⟨st, hnet⟩ : ∃ st, net u = NetResult.resp 200 st none := h
    constructor
    · intro hlt
      obtain ⟨f, rfl⟩ : ∃ f, fuel = f + 1 := ⟨fuel - 1, by omega⟩
      simp [fwrLoop, hnet]
    · intro heq
      subst heq
      simp [fwrLoop]
  | cons v t ih =>
    intro u k fuel h
    obtain ⟨⟨s, st, h3, h4, hnet⟩, habs, hch⟩ := h
    constructor
    · intro hlt
      obtain ⟨f, rfl⟩ : ∃ f, fuel = f + 1 := ⟨fuel - 1, by omega⟩
      have hres : resolveUrl v u = v := by unfold resolveUrl; rw [habs]; rfl
      have hstep : fwrLoop net (f + 1) u k = fwrLoop net f v (k + 1) := by
        simp [fwrLoop, hnet, h3, h4, hres]
      have hlen : t.length < f := by
        simpa using Nat.lt_of_succ_lt_succ hlt
      rw [hstep, List.getLastD_cons, List.length_cons, (ih v (k + 1) f hch).1 hlen]
      simp only [Except.ok.injEq, Prod.mk.injEq]
      exact ⟨trivial, by omega⟩
    · intro heq
      rw [List.length_cons] at heq
      obtain ⟨f, rfl⟩ : ∃ f, fuel = f + 1 := ⟨fuel - 1, by omega⟩
      have hres : resolveUrl v u = v := by unfold resolveUrl; rw [habs]; rfl
      have hstep : fwrLoop net (f + 1) u k = fwrLoop net f v (k + 1) := by
        simp [fwrLoop, hnet, h3, h4, hres]
      have hlen : t.length = f := by omega
      rw [hstep, List.getLastD_cons, List.length_cons, (ih v (k + 1) f hch).2 hlen]
      simp only [Except.ok.injEq, Prod.mk.injEq]
      exact ⟨trivial, by omega⟩

/-! ### Claim theorems -/

/-- C1: the critical-failure filter never counts the robots.txt check.
At an analysis whose robots.txt probe returns a disallow-all body, the
`Robots.txt Configuration` entry (index 4) has status `fail`, yet the
case-sensitive fragment `robots.txt` does not occur in the check's name,
so the check is absent from `criticalChecks` (here exactly the three
other critical failures are counted) and contributes no 15-point
penalty — contradicting the claim that a fail-status
`Robots.txt Configuration` check counts as a critical failure. -/
theorem C1_robots_fail_not_critical :
    ((analyze inpC1).1.getD 4 defaultCheck).name = "Robots.txt Configuration" ∧
    ((analyze inpC1).1.getD 4 defaultCheck).status = Status.fail ∧
    criticalNameB "Robots.txt Configuration" = false ∧
    ((criticalChecks (analyze inpC1).1).all
      (fun c => c.name != "Robots.txt Configuration")) = true ∧
    (criticalChecks (analyze inpC1).1).length = 3 := by
  decide

/-- C3 counterexample: a reachable robots.txt with no blocking pattern
and no sitemap directive yields a `pass` result whose score
contribution is the full weight 12, not the half weight 6 the claim
asserts for the sitemap-free case. -/
theorem C3_counterexample :
    isBlocked robotsNoSitemap = false ∧
    hasSitemapRef robotsNoSitemap = false ∧
    robotsCheck (FetchProbe.ok robotsNoSitemap) =
      (Status.pass, "robots.txt allows crawling but consider adding sitemap reference.") ∧
    scoreAdd 12 (robotsCheck (FetchProbe.ok robotsNoSitemap)).1 = 12 ∧
    ¬ scoreAdd 12 (robotsCheck (FetchProbe.ok robotsNoSitemap)).1 = 6 := by
  have hr : robotsCheck (FetchProbe.ok robotsNoSitemap) =
      (Status.pass, "robots.txt allows crawling but consider adding sitemap reference.") := by
    decide
  refine ⟨by decide, by decide, hr, ?_, ?_⟩ <;> rw [hr] <;> norm_num [scoreAdd]

/-- C3 amended: when robots.txt is reachable and no disallow-all
pattern matches, the check passes with the full weight 12 whether or
not a sitemap directive is present (only the message differs); it
fails when a disallow-all pattern matches; it warns when the probe
throws or the response is not ok. -/
theorem C3_amended (t m : String) :
    (isBlocked t = true →
      robotsCheck (FetchProbe.ok t) =
        (Status.fail, "robots.txt blocks search engine crawlers - this will prevent AdSense approval.")) ∧
    (isBlocked t = false →
      (robotsCheck (FetchProbe.ok t)).1 = Status.pass ∧
      scoreAdd 12 (robotsCheck (FetchProbe.ok t)).1 = 12) ∧
    (robotsCheck (FetchProbe.err m)).1 = Status.warn ∧
    (robotsCheck FetchProbe.notOk).1 = Status.warn := by
  refine ⟨?_, ?_, rfl, rfl⟩
  · intro h
    simp [robotsCheck, h]
  · intro h
    cases hs : hasSitemapRef t <;> simp [robotsCheck, h, hs, scoreAdd]

/-- C3 witness: the amended theorem applied to a blocking body and to
a sitemap-free body. -/
theorem C3_amended_witness :
    robotsCheck (FetchProbe.ok "User-agent: Googlebot\nDisallow: /") =
      (Status.fail, "robots.txt blocks search engine crawlers - this will prevent AdSense approval.") ∧
    (robotsCheck (FetchProbe.ok robotsNoSitemap)).1 = Status.pass :=
  ⟨(C3_amended "User-agent: Googlebot\nDisallow: /" "x").1 (by decide),
   ((C3_amended robotsNoSitemap "x").2.1 (by decide)).1⟩

/-- C8 counterexample: a document with no H1 element (and five
headings) makes the Heading Structure check fail, not warn. -/
theorem C8_counterexample :
    docNoH1.h1Count = 0 ∧
    (headingCheck docNoH1).1 = Status.fail ∧
    ¬ (headingCheck docNoH1).1 = Status.warn := by
  decide

/-- C8 amended: the check passes iff there is exactly one H1 and at
least three headings; one H1 with fewer than three headings warns;
more than one H1 warns; zero H1 elements fail (not warn). -/
theorem C8_amended (d : Document) :
    ((headingCheck d).1 = Status.pass ↔ d.h1Count = 1 ∧ d.headingCount ≥ 3) ∧
    (d.h1Count = 1 → d.headingCount < 3 → (headingCheck d).1 = Status.warn) ∧
    (d.h1Count > 1 → (headingCheck d).1 = Status.warn) ∧
    (d.h1Count = 0 → (headingCheck d).1 = Status.fail) := by
  unfold headingCheck
  split_ifs with h1 h2 h3 <;>
    refine ⟨?_, ?_, ?_, ?_⟩ <;>
    (simp_all; try omega)

/-- C8 witness: the amended theorem applied to a healthy document and
to the H1-free document. -/
theorem C8_amended_witness :
    (headingCheck docC2).1 = Status.pass ∧ (headingCheck docNoH1).1 = Status.fail :=
  ⟨(C8_amended docC2).1.mpr (by decide), (C8_amended docNoH1).2.2.2 (by decide)⟩

/-- C10: on a document with zero images the Image Optimization check
takes the guarded branch and returns `warn` with the fixed message; the
alt-text ratio is never computed for an image-free page. -/
theorem C10_no_images_warn (d : Document) (h : d.imgCount = 0) :
    imageCheck d = (Status.warn, "No images found. Visual content improves user engagement.") := by
  simp [imageCheck, h]

/-- C10 witness: the empty document has no images and warns. -/
theorem C10_no_images_warn_witness :
    imageCheck docMin = (Status.warn, "No images found. Visual content improves user engagement.") :=
  C10_no_images_warn docMin (by decide)

set_option maxRecDepth 100000 in
/-- C2 counterexample: a concrete insecure page (plain http final URL,
no privacy-policy link, 200 words of content) produces five critical
failures — the substring filter also counts `HTTPS Redirect Check` and
`Main Content Volume` — and a penalty note of 75, not the three
critical failures and penalty of 45 the claim asserts. -/
theorem C2_counterexample :
    strStarts inpC2.finalResolvedUrl "https://" = false ∧
    findLink ["privacy", "policy", "privacy-policy"] inpC2.doc.links = none ∧
    wordCount inpC2.doc.bodyText = 200 ∧
    (criticalChecks (analyze inpC2).1).length = 5 ∧
    (scorer (analyze inpC2).1 (analyze inpC2).2).penalties =
      ["Critical issues detected: -75%"] := by
  decide

/-- C2 amended: for every analysis of an insecure page (final URL not
https) with no privacy-policy link, 200 words of body content and no
detected main-content region, the five checks Secure Connection
(HTTPS/SSL), HTTPS Redirect Check, Privacy Policy Page, Content Volume
and Main Content Volume all fail and are all counted critical, so the
critical count is 5, the recorded penalty is 75 (subtracted from
finalScore with a floor of 0), and finalScore is additionally capped
at 65. -/
theorem C2_amended (inp : AnalysisInput)
    (h1 : strStarts inp.finalResolvedUrl "https://" = false)
    (h2 : findLink ["privacy", "policy", "privacy-policy"] inp.doc.links = none)
    (h3 : wordCount inp.doc.bodyText = 200)
    (h4 : inp.doc.mainText = none) :
    (criticalChecks (analyze inp).1).length = 5 ∧
    (scorer (analyze inp).1 (analyze inp).2).penalties.head? =
      some "Critical issues detected: -75%" ∧
    (scorer (analyze inp).1 (analyze inp).2).finalScore ≤ 65 := by
  have hsC := secureConn_fail h1
  have hrC := httpsRedirect_fail (i := inp.initialUrl) h1
  have hpC := privacy_fail h2
  have hcC := contentVolume_fail h3
  have hmC := mainContent_fail h4 h3
  have hcrit : (criticalChecks (analyze inp).1).length = 5 := by
    simp [criticalChecks, analyze, checkSpecs, runAll, runCheckStep, manualChecks,
      List.filter_append, List.filter_cons, hsC, hrC, hpC, hcC, hmC,
      critB_secure, critB_redirect, critB_title, critB_meta, critB_robots, critB_nav,
      critB_privacy, critB_terms, critB_about, critB_mobile, critB_content,
      critB_heading, critB_image, critB_language, critB_favicon, critB_speed,
      critB_errorPage, critB_social, critB_analytics, critB_ads, critB_structured,
      critB_mainContent, critB_manualA, critB_manualB, critB_manualC]
  refine ⟨hcrit, ?_, ?_⟩
  · simp only [scorer, hcrit]
    by_cases hF : 5 < failedCount (analyze inp).1 <;> simp [hF] <;> decide
  · simp only [scorer, hcrit]
    have h5 : (0 : ℕ) < 5 := by decide
    simp only [h5, if_true]
    exact le_trans (min_le_left _ _) (min_le_right _ _)

set_option maxRecDepth 100000 in
/-- C2 amended witness: the amended theorem applied to the concrete
insecure-page scenario. -/
theorem C2_amended_witness :
    (criticalChecks (analyze inpC2).1).length = 5 ∧
    (scorer (analyze inpC2).1 (analyze inpC2).2).penalties.head? =
      some "Critical issues detected: -75%" ∧
    (scorer (analyze inpC2).1 (analyze inpC2).2).finalScore ≤ 65 :=
  C2_amended inpC2 (by decide) (by decide) (by decide) rfl

/-- C4 counterexample: on a network that answers 200 immediately
(N = 0 redirects), `fetchWithRedirects` issues 2 requests — the loop
request plus the unconditional final request — exceeding the claimed
bound of N + 1 = 1. -/
theorem C4_counterexample :
    fetchWithRedirects netC4a "http://a.example/" =
      Except.ok ("http://a.example/", 200, "OK", 2) ∧
    ¬ (2 ≤ 0 + 1) := by
  exact ⟨rfl, by decide⟩

/-- C4 amended: for every redirect chain with N ≤ 5 redirects ending in
a 200 status, `fetchWithRedirects` returns the last redirect target as
the final URL with status 200, and issues exactly `min (N + 2) 6`
requests — at most N + 2, one more than the claimed N + 1, because one
final unconditional request to the last computed URL is always
issued. -/
theorem C4_amended (net : String → NetResult) (u : String) (vs : List String)
    (h : ChainTo net u vs) (hN : vs.length ≤ 5) :
    (∃ st, fetchWithRedirects net u =
      Except.ok (vs.getLastD u, 200, st, min (vs.length + 2) 6)) ∧
    min (vs.length + 2) 6 ≤ vs.length + 2 := by
  refine ⟨?_, min_le_left _ _⟩
  obtain ⟨st, hlast⟩ := chainTo_last net vs u h
  rcases Nat.lt_or_ge vs.length 5 with hlt | hge
  · have hloop := (fwrLoop_chain net vs u 0 5 h).1 hlt
    refine ⟨st, ?_⟩
    unfold fetchWithRedirects
    rw [hloop]
    have hmin : min (vs.length + 2) 6 = vs.length + 2 := by omega
    rw [hmin]
    simp only [hlast]
    simp only [Except.ok.injEq, Prod.mk.injEq]
    refine ⟨trivial, trivial, trivial, by omega⟩
  · have heq : vs.length = 5 := by omega
    have hloop := (fwrLoop_chain net vs u 0 5 h).2 heq
    refine ⟨st, ?_⟩
    unfold fetchWithRedirects
    rw [hloop]
    have hmin : min (vs.length + 2) 6 = vs.length + 1 := by omega
    rw [hmin]
    simp only [hlast]
    simp only [Except.ok.injEq, Prod.mk.injEq]
    refine ⟨trivial, trivial, trivial, by omega⟩

/-- C4 witness: a one-redirect chain resolved through the amended
theorem — the final URL is the redirect target and 3 = 1 + 2 requests
are issued. -/
theorem C4_amended_witness :
    ∃ st, fetchWithRedirects netC4b "http://a.example/" =
      Except.ok ("http://b.example/", 200, st, 3) := by
  have h := (C4_amended netC4b "http://a.example/" ["http://b.example/"]
    ⟨⟨301, "Moved Permanently", by decide, by decide, by decide⟩, by decide,
      ⟨"OK", by decide⟩⟩ (by decide)).1
  simpa using h

/-- C5 counterexample: on a network where every https request throws
and every http request answers 200, analyzing an https target returns
the terminal 500 error without ever retrying over plain http (which
would have succeeded, as the second conjunct shows) — contradicting the
claim that a thrown HTTPS attempt triggers an HTTP retry and that the
terminal error occurs only when both scheme attempts fail. -/
theorem C5_counterexample :
    analyzeFetch netC5 "https://site.example/" =
      Except.error (httpErrorMsg "connection refused") ∧
    analyzeFetch netC5 "http://site.example/" =
      Except.ok ("http://site.example/", 200) := by
  exact ⟨rfl, rfl⟩

/-- C5 amended: the HTTP fallback happens only when the HTTPS attempt
returns a non-success response without throwing; a thrown HTTPS attempt
(network error or timeout) is terminal immediately, with no HTTP retry;
after a non-ok HTTPS response the caller retries exactly once over
plain HTTP, and the terminal 500 error is returned when that retry also
throws or returns a non-success status. -/
theorem C5_amended (net : String → NetResult) (target : String)
    (hts : strStarts target "https://" = true) :
    (∀ e, fetchWithRedirects net target = Except.error e →
      analyzeFetch net target = Except.error (httpErrorMsg e)) ∧
    (∀ u s st k u2 s2 st2 k2,
      fetchWithRedirects net target = Except.ok (u, s, st, k) →
      isOkStatus s = false →
      fetchWithRedirects net (toHttp target) = Except.ok (u2, s2, st2, k2) →
      (isOkStatus s2 = true → analyzeFetch net target = Except.ok (u2, s2)) ∧
      (isOkStatus s2 = false →
        analyzeFetch net target = Except.error (httpErrorMsg (statusErrorMsg s2 st2)))) ∧
    (∀ u s st k e2,
      fetchWithRedirects net target = Except.ok (u, s, st, k) →
      isOkStatus s = false →
      fetchWithRedirects net (toHttp target) = Except.error e2 →
      analyzeFetch net target = Except.error (httpErrorMsg e2)) := by
  refine ⟨?_, ?_, ?_⟩
  · intro e he
    simp [analyzeFetch, he]
  · intro u s st k u2 s2 st2 k2 h1 h2 h3
    constructor <;> intro h4 <;> simp [analyzeFetch, h1, h2, h3, h4, hts]
  · intro u s st k e2 h1 h2 h3
    simp [analyzeFetch, h1, h2, h3, hts]

/-- C5 witness: the amended theorem applied to the throwing network
(immediate terminal error) and to a network whose https answer is a
500 response (successful fallback to http). -/
theorem C5_amended_witness :
    analyzeFetch netC5 "https://site.example/" =
      Except.error (httpErrorMsg "connection refused") ∧
    analyzeFetch netC5b "https://site.example/" =
      Except.ok ("http://site.example/", 200) := by
  constructor
  · exact (C5_amended netC5 "https://site.example/" (by decide)).1
      "connection refused" rfl
  · exact ((C5_amended netC5b "https://site.example/" (by decide)).2.1
      "https://site.example/" 500 "Internal Server Error" 2
      "http://site.example/" 200 "OK" 2 rfl (by decide) rfl).1 (by decide)

/-- C6: (a) for every registry, the result list has one entry per
declared check with the names in declaration order, and a check whose
predicate throws is recorded at its own position as a `fail` result
with the synthetic `Check failed:` message while all other checks are
still evaluated; (b) every analysis run produces exactly the 25
declared check results in declaration order, regardless of the
document, the probes, or the URLs. -/
theorem C6_isolation :
    (∀ specs : List CheckSpec,
      ((runAll specs).1.map (fun c => c.name) = specs.map (fun s => s.name)) ∧
      (∀ (i : Nat) (s : CheckSpec) (e : String), specs[i]? = some s →
        s.predicate = Except.error e →
        (runAll specs).1[i]? = some
          { name := s.name, category := s.category, weight := some s.weight,
            status := Status.fail, message := "Check failed: " ++ e })) ∧
    (∀ inp : AnalysisInput, (analyze inp).1.map (fun c => c.name) = declaredCheckNames) :=
  ⟨fun specs => ⟨runAll_names specs, runAll_error specs⟩, analyze_names⟩

/-- C6 witness: in a registry whose first predicate throws, the first
result is the synthetic `fail` entry, the second check still runs, and
a full concrete analysis yields the 25 declared names in order. -/
theorem C6_isolation_witness :
    (runAll specsC6).1[0]? = some
      { name := "Throwing Check", category := "Test", weight := some 5,
        status := Status.fail, message := "Check failed: boom" } ∧
    (runAll specsC6).1.map (fun c => c.name) = ["Throwing Check", "Passing Check"] ∧
    (analyze inpC1).1.map (fun c => c.name) = declaredCheckNames :=
  ⟨(C6_isolation.1 specsC6).2 0
      { name := "Throwing Check", category := "Test", weight := 5,
        predicate := Except.error "boom" } "boom" rfl rfl,
   (C6_isolation.1 specsC6).1,
   C6_isolation.2 inpC1⟩

/-- C7 counterexample: the manual `Content Originality & Quality`
entry produced by an analysis (index 22) has status `manual` but
carries no weight field at all (`none`), not the numeric weight 0 the
claim asserts. -/
theorem C7_counterexample :
    ((analyze inpC1).1.getD 22 defaultCheck).name = "Content Originality & Quality" ∧
    ((analyze inpC1).1.getD 22 defaultCheck).status = Status.manual ∧
    ((analyze inpC1).1.getD 22 defaultCheck).weight = none ∧
    ¬ ((analyze inpC1).1.getD 22 defaultCheck).weight = some 0 := by
  refine ⟨by decide, by decide, by decide, ?_⟩
  intro hcontra
  have : (none : Option ℚ) = some 0 := by
    rw [← hcontra]
    decide
  exact Option.noConfusion this

/-- C7 amended: every produced CheckResult either carries a numeric
weight ≥ 0 and a non-manual status, or is one of the manual entries,
which carry no weight field (`none`, omitted in the JSON payload)
rather than the weight 0 the claim asserts; `totalPossibleWeight`
equals the sum of the weights of the non-manual checks, always 209. -/
theorem C7_amended (inp : AnalysisInput) :
    (∀ c ∈ (analyze inp).1,
      (∃ w, c.weight = some w ∧ 0 ≤ w ∧ c.status ≠ Status.manual) ∨
      (c.status = Status.manual ∧ c.weight = none)) ∧
    totalPossibleWeight (analyze inp).1 = 209 := by
  constructor
  · intro c hc
    simp only [analyze, checkSpecs, runAll, runCheckStep, manualChecks,
      List.mem_append, List.mem_cons, List.not_mem_nil, or_false] at hc
    rcases hc with hc | hc
    · rcases hc with rfl | rfl | rfl | rfl | rfl | rfl | rfl | rfl | rfl | rfl | rfl |
        rfl | rfl | rfl | rfl | rfl | rfl | rfl | rfl | rfl | rfl | rfl
      · exact Or.inl ⟨20, rfl, by norm_num,
          by simpa [bne_iff_ne] using secureConn_not_manual inp.finalResolvedUrl⟩
      · exact Or.inl ⟨15, rfl, by norm_num,
          by simpa [bne_iff_ne] using httpsRedirect_not_manual inp.initialUrl inp.finalResolvedUrl⟩
      · exact Or.inl ⟨8, rfl, by norm_num,
          by simpa [bne_iff_ne] using titleCheck_not_manual inp.doc⟩
      · exact Or.inl ⟨6, rfl, by norm_num,
          by simpa [bne_iff_ne] using metaDescription_not_manual inp.doc⟩
      · exact Or.inl ⟨12, rfl, by norm_num,
          by simpa [bne_iff_ne] using robotsCheck_not_manual inp.robotsProbe⟩
      · exact Or.inl ⟨10, rfl, by norm_num,
          by simpa [bne_iff_ne] using navigationCheck_not_manual inp.doc⟩
      · exact Or.inl ⟨25, rfl, by norm_num,
          by simpa [bne_iff_ne] using privacyCheck_not_manual inp.doc⟩
      · exact Or.inl ⟨8, rfl, by norm_num,
          by simpa [bne_iff_ne] using termsCheck_not_manual inp.doc⟩
      · exact Or.inl ⟨12, rfl, by norm_num,
          by simpa [bne_iff_ne] using aboutContact_not_manual inp.doc⟩
      · exact Or.inl ⟨10, rfl, by norm_num,
          by simpa [bne_iff_ne] using mobileCheck_not_manual inp.doc⟩
      · exact Or.inl ⟨20, rfl, by norm_num,
          by simpa [bne_iff_ne] using contentVolume_not_manual inp.doc⟩
      · exact Or.inl ⟨5, rfl, by norm_num,
          by simpa [bne_iff_ne] using headingCheck_not_manual inp.doc⟩
      · exact Or.inl ⟨4, rfl, by norm_num,
          by simpa [bne_iff_ne] using imageCheck_not_manual inp.doc⟩
      · exact Or.inl ⟨3, rfl, by norm_num,
          by simpa [bne_iff_ne] using languageCheck_not_manual inp.doc⟩
      · exact Or.inl ⟨2, rfl, by norm_num,
          by simpa [bne_iff_ne] using faviconCheck_not_manual inp.doc⟩
      · exact Or.inl ⟨3, rfl, by norm_num,
          by simpa [bne_iff_ne] using pageSpeed_not_manual inp.responseTime⟩
      · exact Or.inl ⟨5, rfl, by norm_num,
          by simpa [bne_iff_ne] using errorPage_not_manual inp.doc⟩
      · exact Or.inl ⟨3, rfl, by norm_num,
          by simpa [bne_iff_ne] using socialCheck_not_manual inp.doc⟩
      · exact Or.inl ⟨7, rfl, by norm_num,
          by simpa [bne_iff_ne] using analyticsCheck_not_manual inp.doc⟩
      · exact Or.inl ⟨10, rfl, by norm_num,
          by simpa [bne_iff_ne] using adsTxtCheck_not_manual inp.adsProbe⟩
      · exact Or.inl ⟨6, rfl, by norm_num,
          by simpa [bne_iff_ne] using structuredData_not_manual inp.doc⟩
      · exact Or.inl ⟨15, rfl, by norm_num,
          by simpa [bne_iff_ne] using mainContent_not_manual inp.doc⟩
    · rcases hc with rfl | rfl | rfl <;> exact Or.inr ⟨rfl, rfl⟩
  · simp only [analyze, checkSpecs, runAll, runCheckStep, manualChecks,
      totalPossibleWeight, List.filter_append, List.filter_cons, List.filter_nil,
      secureConn_not_manual, httpsRedirect_not_manual, titleCheck_not_manual,
      metaDescription_not_manual, robotsCheck_not_manual, navigationCheck_not_manual,
      privacyCheck_not_manual, termsCheck_not_manual, aboutContact_not_manual,
      mobileCheck_not_manual, contentVolume_not_manual, headingCheck_not_manual,
      imageCheck_not_manual, languageCheck_not_manual, faviconCheck_not_manual,
      pageSpeed_not_manual, errorPage_not_manual, socialCheck_not_manual,
      analyticsCheck_not_manual, adsTxtCheck_not_manual, structuredData_not_manual,
      mainContent_not_manual, bne_self_eq_false, List.map_cons, List.map_nil,
      List.sum_cons, List.sum_nil, Option.getD_some]
    norm_num

/-- C7 amended witness: the amended theorem applied to a concrete
analysis. -/
theorem C7_amended_witness : totalPossibleWeight (analyze inpC1).1 = 209 :=
  (C7_amended inpC1).2

/-- C9: (a) upgrading any single check's status from fail to warn or
from warn to pass, holding everything else fixed, never decreases the
pre-penalty finalScore `round(100 * rawScore / totalPossibleWeight)`;
(b) the pre-penalty finalScore is monotonically non-decreasing in
`rawScore`; (c) the score accumulated by the harness equals `rawScore`
of the produced result list. -/
theorem C9_monotonicity :
    (∀ (l : List CheckResult) (i : Nat) (c : CheckResult) (s' : Status),
      l[i]? = some c → 0 ≤ c.weight.getD 0 →
      ((c.status = Status.fail ∧ s' = Status.warn) ∨
       (c.status = Status.warn ∧ s' = Status.pass)) →
      baseFinalScore l (rawScore l) ≤
        baseFinalScore (l.set i { c with status := s' })
          (rawScore (l.set i { c with status := s' }))) ∧
    (∀ (l : List CheckResult) (q q' : ℚ), q ≤ q' →
      baseFinalScore l q ≤ baseFinalScore l q') ∧
    (∀ inp : AnalysisInput, (analyze inp).2 = rawScore (analyze inp).1) := by
  refine ⟨?_, fun l q q' h => baseFinalScore_mono l h, analyze_score_eq⟩
  intro l i c s' hget hw hup
  have hT : totalPossibleWeight (l.set i { c with status := s' }) = totalPossibleWeight l := by
    rw [totalPossibleWeight_eq_sum, totalPossibleWeight_eq_sum,
      map_sum_set twContrib l i c _ hget]
    have heq : twContrib { c with status := s' } = twContrib c := by
      rcases hup with ⟨h1, h2⟩ | ⟨h1, h2⟩ <;> simp [twContrib, h1, h2]
    rw [heq]
    ring
  have hR : rawScore l ≤ rawScore (l.set i { c with status := s' }) := by
    unfold rawScore
    rw [map_sum_set contrib l i c _ hget]
    have hc : contrib c ≤ contrib { c with status := s' } := by
      rcases hup with ⟨h1, h2⟩ | ⟨h1, h2⟩ <;> simp [contrib, h1, h2] <;> linarith
    linarith
  have hrw : baseFinalScore (l.set i { c with status := s' })
      (rawScore (l.set i { c with status := s' })) =
      baseFinalScore l (rawScore (l.set i { c with status := s' })) := by
    unfold baseFinalScore
    rw [hT]
  rw [hrw]
  exact baseFinalScore_mono l hR

/-- C9 witness: the monotonicity theorem applied to a one-element list
whose check is upgraded from fail to warn. -/
theorem C9_monotonicity_witness :
    baseFinalScore [oneCheckC9] (rawScore [oneCheckC9]) ≤
      baseFinalScore ([oneCheckC9].set 0 { oneCheckC9 with status := Status.warn })
        (rawScore ([oneCheckC9].set 0 { oneCheckC9 with status := Status.warn })) :=
  C9_monotonicity.1 [oneCheckC9] 0 oneCheckC9 Status.warn rfl
    (by norm_num [oneCheckC9]) (Or.inl ⟨rfl, rfl⟩)

end Adr
